import Mathlib

/-!
Shallow embedding of the `data_api` service: `src/data_api/models.py`
(pydantic request models) and `src/data_api/main.py` (FastAPI routes).
Machine integers are modelled as `Int`/`Nat`; the process-wide salt, the
interpreter's built-in string hash and the random nonce draw are explicit
parameters; the database table `ecli_document` is a list of rows in
insertion order, with `fetchrow` returning the first matching row.
-/

namespace DataApi

/-- JSON values as delivered to the request validator (floats are not
needed by any request in scope). -/
inductive Json where
  | null : Json
  | bool (b : Bool) : Json
  | num (n : Int) : Json
  | str (s : String) : Json
  | arr (xs : List Json) : Json
  | obj (fields : List (String × Json)) : Json

/-- A JSON object body, as a key/value list. -/
abbrev JObj := List (String × Json)

/-- First binding of a key in a JSON object. -/
def lookupKey : JObj → String → Option Json
  | [], _ => none
  | (k2, v) :: rest, k => if k2 = k then some v else lookupKey rest k

/-- Coercion of a JSON value to a Python `str` field, following pydantic
v1 non-strict semantics: strings pass through, numbers (and bools, which
are `int` subclasses in Python) are rendered with `str`. -/
def asStr : Json → Option String
  | .str s => some s
  | .num n => some (toString n)
  | .bool b => some (if b then "True" else "False")
  | _ => none

/-- Coercion of a JSON value to a Python `int` field, following pydantic
v1 non-strict semantics: ints pass, numeric strings parse, bools coerce. -/
def asInt : Json → Option Int
  | .num n => some n
  | .str s => s.toInt?
  | .bool b => some (if b then 1 else 0)
  | _ => none

/-- External parsing collaborators used by the pydantic field types:
`datetime` parsing for `_timestamp` and `json.loads` for `meta`.  Both
live outside this repository, so they are parameters of the model. -/
structure Parsers where
  parseTimestamp : Json → Option Int
  parseMeta : String → Option Json

/-- Validation of one field: look the key up and coerce; a miss or a
failed coercion is an error carrying the field key. -/
def getField {α : Type} (obj : JObj) (k : String) (conv : Json → Option α) :
    Except String α :=
  match lookupKey obj k with
  | none => .error k
  | some j =>
    match conv j with
    | none => .error k
    | some a => .ok a

/-- A required `str` field of a pydantic model. -/
def getStr (obj : JObj) (k : String) : Except String String :=
  getField obj k asStr

/-- A required `int` field of a pydantic model. -/
def getInt (obj : JObj) (k : String) : Except String Int :=
  getField obj k asInt

/-- A required `PositiveInt` field of a pydantic model (`v` in models.py):
an int that must additionally be strictly positive. -/
def getPosInt (obj : JObj) (k : String) : Except String Int :=
  match getField obj k asInt with
  | .error e => .error e
  | .ok n => if 0 < n then .ok n else .error k

/-- A required `datetime` field of a pydantic model, delegated to the
external timestamp parser. -/
def getTimestamp (P : Parsers) (obj : JObj) (k : String) : Except String Int :=
  match lookupKey obj k with
  | none => .error k
  | some j =>
    match P.parseTimestamp j with
    | none => .error k
    | some t => .ok t

/-- The optional `meta: Json = None` field of `SubmitModel` (models.py
line 17): absent or null yields `None`; a string must parse as JSON; any
other JSON type is rejected by the pydantic `Json` validator. -/
def getMeta (P : Parsers) (obj : JObj) : Except String (Option Json) :=
  match lookupKey obj "meta" with
  | none => .ok none
  | some .null => .ok none
  | some (.str s) =>
    match P.parseMeta s with
    | none => .error "meta"
    | some j => .ok (some j)
  | some _ => .error "meta"

/-- Error-accumulating application, modelling how pydantic validates every
field and reports all offending fields together. -/
def collect {α β : Type} (f : Except (List String) (α → β))
    (x : Except String α) : Except (List String) β :=
  match f, x with
  | .ok g, .ok a => .ok (g a)
  | .ok _, .error e => .error [e]
  | .error es, .ok _ => .error es
  | .error es, .error e => .error (es ++ [e])

/-- SubmitModel (models.py lines 8-17): envelope `v` (alias `_v`) and
`timestamp` (alias `_timestamp`), the four identity fields, `text`,
`user_key`, and optional parsed `meta`. -/
structure SubmitModel where
  v : Int
  timestamp : Int
  country : String
  court : String
  year : Int
  identifier : String
  text : String
  user_key : String
  meta : Option Json

/-- ReadModel (models.py lines 34-37): envelope fields plus `ecli`. -/
structure ReadModel where
  v : Int
  timestamp : Int
  ecli : String

/-- UpdateModel (models.py lines 49-52): envelope fields plus `ecli`. -/
structure UpdateModel where
  v : Int
  timestamp : Int
  ecli : String

/-- Keys a Submit body must supply (envelope fields under their aliases). -/
def submitRequiredKeys : List String :=
  ["_v", "_timestamp", "country", "court", "year", "identifier", "text", "user_key"]

/-- Schema validation of a Submit body against `SubmitModel`. -/
def validateSubmit (P : Parsers) (obj : JObj) :
    Except (List String) SubmitModel :=
  collect (collect (collect (collect (collect (collect (collect (collect (collect
    (Except.ok SubmitModel.mk)
    (getPosInt obj "_v"))
    (getTimestamp P obj "_timestamp"))
    (getStr obj "country"))
    (getStr obj "court"))
    (getInt obj "year"))
    (getStr obj "identifier"))
    (getStr obj "text"))
    (getStr obj "user_key"))
    (getMeta P obj)

/-- Schema validation of a Read body against `ReadModel`. -/
def validateRead (P : Parsers) (obj : JObj) :
    Except (List String) ReadModel :=
  collect (collect (collect
    (Except.ok ReadModel.mk)
    (getPosInt obj "_v"))
    (getTimestamp P obj "_timestamp"))
    (getStr obj "ecli")

/-- Schema validation of an Update body against `UpdateModel`. -/
def validateUpdate (P : Parsers) (obj : JObj) :
    Except (List String) UpdateModel :=
  collect (collect (collect
    (Except.ok UpdateModel.mk)
    (getPosInt obj "_v"))
    (getTimestamp P obj "_timestamp"))
    (getStr obj "ecli")

/-- VERSION constant (main.py line 57). -/
def VERSION : Int := 1

/-- Low bound of the nonce draw `random.randint(1, 80000)` in `doc_hash`
(main.py line 71); `randint` is inclusive on both ends. -/
def NONCE_LO : Nat := 1

/-- High bound of the nonce draw `random.randint(1, 80000)` in `doc_hash`
(main.py line 71). -/
def NONCE_HI : Nat := 80000

/-- The string hashed by `doc_hash`: the f-string interpolation
`ecli`, then the nonce, then the salt (main.py line 72). -/
def preHash (ecli : String) (nonce : Nat) (salt : String) : String :=
  ecli ++ toString nonce ++ salt

/-- doc_hash (main.py lines 70-72), with the nonce draw and the built-in
string hash made explicit inputs: `str(abs(hash(f"{ecli}{nonce}{salt}")))`. -/
def doc_hash (hashFn : String → Int) (salt : String) (ecli : String)
    (nonce : Nat) : String :=
  toString (Int.natAbs (hashFn (preHash ecli nonce salt)))

/-- The canonical identifier construction of the create route (main.py
line 114): `f"ECLI:{query.country}:{query.court}:{query.year}:{query.identifier}"`. -/
def mkEcli (q : SubmitModel) : String :=
  "ECLI:" ++ q.country ++ ":" ++ q.court ++ ":" ++ toString q.year ++ ":" ++ q.identifier

/-- One row of the `ecli_document` table (main.py lines 117-129). -/
structure EcliDocument where
  ecli : String
  country : String
  court : String
  year : Int
  identifier : String
  text : String
  meta : Option Json
  ukey : String
  hash : String

/-- Response of the create route: success body, `HTTPException` from the
access gate, or the framework-level validation rejection. -/
inductive CreateResp where
  | ok (hash : String) : CreateResp
  | authError (status : Nat) (detail : String) : CreateResp
  | validationError (fields : List String) : CreateResp

/-- The row bound to the INSERT parameters $1..$9 of the create route
(main.py lines 131-142). -/
def insertedRow (hashFn : String → Int) (salt : String) (q : SubmitModel)
    (nonce : Nat) : EcliDocument :=
  { ecli := mkEcli q, country := q.country, court := q.court, year := q.year,
    identifier := q.identifier, text := q.text, meta := q.meta,
    ukey := q.user_key, hash := doc_hash hashFn salt (mkEcli q) nonce }

/-- The create route body (main.py lines 101-144), after validation: gate
the user key against the hardcoded sentinel, build the ECLI, derive the
hash and insert the row; returns the new table and the response. -/
def create (hashFn : String → Int) (salt : String)
    (store : List EcliDocument) (q : SubmitModel) (nonce : Nat) :
    List EcliDocument × CreateResp :=
  if q.user_key ≠ "test_key" then
    (store, .authError 401 "bad user key")
  else
    (store ++ [insertedRow hashFn salt q nonce],
     .ok (doc_hash hashFn salt (mkEcli q) nonce))

/-- The full POST /create pipeline: framework validation of the body, then
the route handler; a validation failure never reaches the handler. -/
def handleCreate (P : Parsers) (hashFn : String → Int) (salt : String)
    (store : List EcliDocument) (obj : JObj) (nonce : Nat) :
    List EcliDocument × CreateResp :=
  match validateSubmit P obj with
  | .error es => (store, .validationError es)
  | .ok q => create hashFn salt store q nonce

/-- `SELECT ecli, text FROM ecli_document WHERE hash = $1` via `fetchrow`
(main.py lines 165-169): the first matching row, if any. -/
def findByHash (store : List EcliDocument) (h : String) : Option EcliDocument :=
  store.find? (fun r => r.hash == h)

/-- `SELECT ecli, text FROM ecli_document WHERE ecli = $1` via `fetchrow`
(main.py lines 183-187): the first matching row, if any. -/
def findByEcli (store : List EcliDocument) (e : String) : Option EcliDocument :=
  store.find? (fun r => r.ecli == e)

/-- The HTML template of the render routes (main.py lines 170-178) after
`.format(ecli=..., text=...)`, with insignificant whitespace dropped. -/
def renderPage (ecli text : String) : String :=
  "<!DOCTYPE html><html lang=\"en\"><body style=\"font-family:verdana\"><head><title>"
    ++ ecli ++ "</title></head><body>" ++ text ++ "</body></html>"

/-- GET /hash/{dochash} (main.py lines 163-178).  `fetchrow` misses yield
`None`, and `res['ecli']` then raises `TypeError`; the uncaught exception
is modelled as `none` (no HTML response is produced). -/
def gohash (store : List EcliDocument) (dochash : String) : Option String :=
  (findByHash store dochash).map (fun r => renderPage r.ecli r.text)

/-- GET /html/{ecli} (main.py lines 181-196), with the same crashing
behaviour on a miss as `gohash`. -/
def ecli (store : List EcliDocument) (e : String) : Option String :=
  (findByEcli store e).map (fun r => renderPage r.ecli r.text)

/-- GET /read route body (main.py lines 147-152): a stub returning "ok". -/
def read (q : ReadModel) : String := "ok"

/-- GET /update route body (main.py lines 155-160): a stub returning "ok". -/
def update (q : UpdateModel) : String := "ok"

/-! Concrete instantiations of the external collaborators, used to
evaluate the model on closed inputs: a stand-in for the interpreter's
string hash (the real one is randomized per process), a timestamp parser
accepting numeric epochs and a JSON parser accepting the empty object. -/

/-- Stand-in for Python's built-in string `hash` used on closed inputs. -/
def sampleHash (s : String) : Int := (s.length : Int)

/-- Concrete external parsers for closed evaluation: `datetime` accepts
numeric epochs; `json.loads` accepts at least the empty object. -/
def sampleParsers : Parsers :=
  { parseTimestamp := asInt,
    parseMeta := fun s => if s = "{}" then some (Json.obj []) else none }

/-- The documented example submission (models.py lines 20-31), with the
sentinel user key. -/
def q0 : SubmitModel :=
  { v := 1, timestamp := 1239120938, country := "BE", court := "RSCE",
    year := 2010, identifier := "999.999", text := "Lorem Ipsum",
    user_key := "test_key", meta := none }

/-- A complete well-typed Submit body under the alias keys. -/
def submitObjFull : JObj :=
  [("_v", .num 1), ("_timestamp", .num 1239120938), ("country", .str "BE"),
   ("court", .str "RSCE"), ("year", .num 2010), ("identifier", .str "999.999"),
   ("text", .str "Lorem Ipsum"), ("user_key", .str "test_key")]

/-- The same body with the required `text` field omitted. -/
def submitMissingText : JObj :=
  [("_v", .num 1), ("_timestamp", .num 1239120938), ("country", .str "BE"),
   ("court", .str "RSCE"), ("year", .num 2010), ("identifier", .str "999.999"),
   ("user_key", .str "test_key")]

/-- The same body with protocol version 2 instead of the supported 1. -/
def submitV2Obj : JObj :=
  [("_v", .num 2), ("_timestamp", .num 1239120938), ("country", .str "BE"),
   ("court", .str "RSCE"), ("year", .num 2010), ("identifier", .str "999.999"),
   ("text", .str "Lorem Ipsum"), ("user_key", .str "test_key")]

/-- The same body with protocol version 0. -/
def submitV0Obj : JObj :=
  [("_v", .num 0), ("_timestamp", .num 1239120938), ("country", .str "BE"),
   ("court", .str "RSCE"), ("year", .num 2010), ("identifier", .str "999.999"),
   ("text", .str "Lorem Ipsum"), ("user_key", .str "test_key")]

/-- A body whose five required string fields are all empty. -/
def submitEmptyObj : JObj :=
  [("_v", .num 1), ("_timestamp", .num 1239120938), ("country", .str ""),
   ("court", .str ""), ("year", .num 2010), ("identifier", .str ""),
   ("text", .str ""), ("user_key", .str "")]

/-- A body supplying the envelope fields under `v`/`timestamp` instead of
the aliases `_v`/`_timestamp`. -/
def plainKeysObj : JObj :=
  [("v", .num 1), ("timestamp", .num 1239120938), ("country", .str "BE"),
   ("court", .str "RSCE"), ("year", .num 2010), ("identifier", .str "999.999"),
   ("text", .str "Lorem Ipsum"), ("user_key", .str "test_key"),
   ("ecli", .str "ECLI:BE:RSCE:2020:999.999")]

/-! Helper lemmas about the error-accumulating validator. -/

/-- Error fields of a validation result. -/
def errList {β : Type} : Except (List String) β → List String
  | .error es => es
  | .ok _ => []

theorem errList_collect_left {α β : Type} {f : Except (List String) (α → β)}
    (x : Except String α) {e : String} (he : e ∈ errList f) :
    e ∈ errList (collect f x) := by
  cases f with
  | ok g => simp [errList] at he
  | error es =>
    cases x with
    | ok a => simpa [collect, errList] using he
    | error e2 =>
      simp only [collect, errList, List.mem_append]
      exact Or.inl he

theorem errList_collect_right {α β : Type} (f : Except (List String) (α → β))
    {x : Except String α} {e : String} (hx : x = .error e) :
    e ∈ errList (collect f x) := by
  subst hx
  cases f <;> simp [collect, errList]

theorem errList_mem_error {β : Type} {r : Except (List String) β} {e : String}
    (he : e ∈ errList r) : ∃ es, r = .error es ∧ e ∈ es := by
  cases r with
  | ok b => simp [errList] at he
  | error es => exact ⟨es, rfl, he⟩

theorem collect_oks {α β : Type} {f : Except (List String) (α → β)}
    {x : Except String α} {g : α → β} {a : α}
    (hf : f = .ok g) (hx : x = .ok a) : collect f x = .ok (g a) := by
  subst hf; subst hx; rfl

/-! Helper lemmas about the field checkers. -/

theorem getField_missing {α : Type} {obj : JObj} {k : String}
    (conv : Json → Option α) (h : lookupKey obj k = none) :
    getField obj k conv = .error k := by
  unfold getField
  rw [h]

theorem getStr_missing {obj : JObj} {k : String}
    (h : lookupKey obj k = none) : getStr obj k = .error k :=
  getField_missing asStr h

theorem getInt_missing {obj : JObj} {k : String}
    (h : lookupKey obj k = none) : getInt obj k = .error k :=
  getField_missing asInt h

theorem getPosInt_missing {obj : JObj} {k : String}
    (h : lookupKey obj k = none) : getPosInt obj k = .error k := by
  unfold getPosInt
  rw [getField_missing asInt h]

theorem getTimestamp_missing {P : Parsers} {obj : JObj} {k : String}
    (h : lookupKey obj k = none) : getTimestamp P obj k = .error k := by
  unfold getTimestamp
  rw [h]

theorem getField_badtype {α : Type} {obj : JObj} {k : String} {j : Json}
    (conv : Json → Option α) (hl : lookupKey obj k = some j)
    (hc : conv j = none) : getField obj k conv = .error k := by
  simp [getField, hl, hc]

theorem getField_found {α : Type} {obj : JObj} {k : String} {j : Json} {a : α}
    (conv : Json → Option α) (hl : lookupKey obj k = some j)
    (hc : conv j = some a) : getField obj k conv = .ok a := by
  simp [getField, hl, hc]

theorem getTimestamp_unparseable {P : Parsers} {obj : JObj} {k : String}
    {j : Json} (hl : lookupKey obj k = some j)
    (hp : P.parseTimestamp j = none) : getTimestamp P obj k = .error k := by
  simp [getTimestamp, hl, hp]

theorem getMeta_unparseable {P : Parsers} {obj : JObj} {s : String}
    (hl : lookupKey obj "meta" = some (.str s))
    (hp : P.parseMeta s = none) : getMeta P obj = .error "meta" := by
  simp [getMeta, hl, hp]

/-- If any single field check of the Submit schema fails with field `k`,
the whole validation fails and reports `k`. -/
theorem validateSubmit_field_error {P : Parsers} {obj : JObj} {k : String}
    (h : getPosInt obj "_v" = .error k ∨
         getTimestamp P obj "_timestamp" = .error k ∨
         getStr obj "country" = .error k ∨
         getStr obj "court" = .error k ∨
         getInt obj "year" = .error k ∨
         getStr obj "identifier" = .error k ∨
         getStr obj "text" = .error k ∨
         getStr obj "user_key" = .error k ∨
         getMeta P obj = .error k) :
    ∃ es, validateSubmit P obj = .error es ∧ k ∈ es := by
  apply errList_mem_error
  unfold validateSubmit
  rcases h with h|h|h|h|h|h|h|h|h
  · exact errList_collect_left _ (errList_collect_left _ (errList_collect_left _
      (errList_collect_left _ (errList_collect_left _ (errList_collect_left _
      (errList_collect_left _ (errList_collect_left _
      (errList_collect_right _ h))))))))
  · exact errList_collect_left _ (errList_collect_left _ (errList_collect_left _
      (errList_collect_left _ (errList_collect_left _ (errList_collect_left _
      (errList_collect_left _ (errList_collect_right _ h)))))))
  · exact errList_collect_left _ (errList_collect_left _ (errList_collect_left _
      (errList_collect_left _ (errList_collect_left _ (errList_collect_left _
      (errList_collect_right _ h))))))
  · exact errList_collect_left _ (errList_collect_left _ (errList_collect_left _
      (errList_collect_left _ (errList_collect_left _
      (errList_collect_right _ h)))))
  · exact errList_collect_left _ (errList_collect_left _ (errList_collect_left _
      (errList_collect_left _ (errList_collect_right _ h))))
  · exact errList_collect_left _ (errList_collect_left _ (errList_collect_left _
      (errList_collect_right _ h)))
  · exact errList_collect_left _ (errList_collect_left _ (errList_collect_right _ h))
  · exact errList_collect_left _ (errList_collect_right _ h)
  · exact errList_collect_right _ h

/-- If any single field check of the Read schema fails with field `k`,
the whole validation fails and reports `k`. -/
theorem validateRead_field_error {P : Parsers} {obj : JObj} {k : String}
    (h : getPosInt obj "_v" = .error k ∨
         getTimestamp P obj "_timestamp" = .error k ∨
         getStr obj "ecli" = .error k) :
    ∃ es, validateRead P obj = .error es ∧ k ∈ es := by
  apply errList_mem_error
  unfold validateRead
  rcases h with h|h|h
  · exact errList_collect_left _ (errList_collect_left _ (errList_collect_right _ h))
  · exact errList_collect_left _ (errList_collect_right _ h)
  · exact errList_collect_right _ h

/-- If any single field check of the Update schema fails with field `k`,
the whole validation fails and reports `k`. -/
theorem validateUpdate_field_error {P : Parsers} {obj : JObj} {k : String}
    (h : getPosInt obj "_v" = .error k ∨
         getTimestamp P obj "_timestamp" = .error k ∨
         getStr obj "ecli" = .error k) :
    ∃ es, validateUpdate P obj = .error es ∧ k ∈ es := by
  apply errList_mem_error
  unfold validateUpdate
  rcases h with h|h|h
  · exact errList_collect_left _ (errList_collect_left _ (errList_collect_right _ h))
  · exact errList_collect_left _ (errList_collect_right _ h)
  · exact errList_collect_right _ h

/-- Inserting a row whose hash is fresh for the table makes it the row
found by a subsequent lookup of that hash. -/
theorem findByHash_append_fresh {store : List EcliDocument}
    {row : EcliDocument} {t : String}
    (hfresh : ∀ r ∈ store, r.hash ≠ t) (hrow : row.hash = t) :
    findByHash (store ++ [row]) t = some row := by
  induction store with
  | nil => simp [findByHash, List.find?, hrow]
  | cons r rest ih =>
    have hr : r.hash ≠ t := hfresh r (List.mem_cons_self _ _)
    have ih2 := ih (fun x hx => hfresh x (List.mem_cons_of_mem _ hx))
    simp only [findByHash, List.cons_append, List.find?] at ih2 ⊢
    rw [show (r.hash == t) = false by simpa using hr]
    exact ih2

/-- A submission whose text and meta differ from the example but whose
identity fields agree with it. -/
def q0alt : SubmitModel := { q0 with text := "Different body", meta := some (Json.obj []) }

/-- The example submission with a non-sentinel user key. -/
def qBad : SubmitModel := { q0 with user_key := "wrong_key" }

/-- A Submit body builder with every field present and well-typed, the
five string fields ranging over arbitrary (possibly empty) strings. -/
def mkSubmitObj (n t : Int) (c ct : String) (y : Int)
    (idf tx uk : String) : JObj :=
  [("_v", .num n), ("_timestamp", .num t), ("country", .str c),
   ("court", .str ct), ("year", .num y), ("identifier", .str idf),
   ("text", .str tx), ("user_key", .str uk)]

/-- C1: for every valid authorized Submit payload the create route stores
and returns exactly the ECLI "ECLI:country:court:year:identifier" built by
fixed concatenation from the four identity fields, and that string does
not depend on text or meta. -/
theorem create_stores_canonical_ecli (hashFn : String → Int) (salt : String)
    (store : List EcliDocument) (q : SubmitModel) (nonce : Nat)
    (hkey : q.user_key = "test_key") :
    (create hashFn salt store q nonce).1 = store ++ [insertedRow hashFn salt q nonce]
    ∧ (insertedRow hashFn salt q nonce).ecli
        = "ECLI:" ++ q.country ++ ":" ++ q.court ++ ":" ++ toString q.year
            ++ ":" ++ q.identifier
    ∧ (create hashFn salt store q nonce).2
        = .ok (doc_hash hashFn salt
            ("ECLI:" ++ q.country ++ ":" ++ q.court ++ ":" ++ toString q.year
              ++ ":" ++ q.identifier) nonce)
    ∧ (∀ q2 : SubmitModel, q2.country = q.country → q2.court = q.court →
         q2.year = q.year → q2.identifier = q.identifier → mkEcli q2 = mkEcli q) := by
  refine ⟨by simp [create, hkey], rfl, by simp [create, hkey, mkEcli], ?_⟩
  intro q2 h1 h2 h3 h4
  simp [mkEcli, h1, h2, h3, h4]

/-- C1 witness: the documented example submission stores the documented
example ECLI, and a submission differing only in text and meta yields the
same ECLI. -/
theorem create_stores_canonical_ecli_instance :
    (create sampleHash "OpenJusticePirates" [] q0 5).1
        = [] ++ [insertedRow sampleHash "OpenJusticePirates" q0 5]
    ∧ (insertedRow sampleHash "OpenJusticePirates" q0 5).ecli
        = "ECLI:BE:RSCE:2010:999.999"
    ∧ mkEcli q0alt = mkEcli q0 := by
  obtain ⟨ha, hb, hc, hd⟩ :=
    create_stores_canonical_ecli sampleHash "OpenJusticePirates" [] q0 5 rfl
  exact ⟨ha, by rw [hb]; rfl, hd q0alt rfl rfl rfl rfl⟩

/-- C2: after a successful authorized create whose token is fresh for the
table, looking the returned token up by hash finds exactly the inserted
row, whose ecli is the submitted identity ECLI and whose text is the
submitted text, and the render path returns the page built from them. -/
theorem create_findByHash_roundtrip (hashFn : String → Int) (salt : String)
    (store : List EcliDocument) (q : SubmitModel) (nonce : Nat)
    (hkey : q.user_key = "test_key")
    (hfresh : ∀ r ∈ store, r.hash ≠ doc_hash hashFn salt (mkEcli q) nonce) :
    (create hashFn salt store q nonce).2
        = .ok (doc_hash hashFn salt (mkEcli q) nonce)
    ∧ findByHash (create hashFn salt store q nonce).1
        (doc_hash hashFn salt (mkEcli q) nonce)
        = some (insertedRow hashFn salt q nonce)
    ∧ (insertedRow hashFn salt q nonce).ecli = mkEcli q
    ∧ (insertedRow hashFn salt q nonce).text = q.text
    ∧ gohash (create hashFn salt store q nonce).1
        (doc_hash hashFn salt (mkEcli q) nonce)
        = some (renderPage (mkEcli q) q.text) := by
  have h1 : (create hashFn salt store q nonce).1
      = store ++ [insertedRow hashFn salt q nonce] := by
    simp [create, hkey]
  have hfind : findByHash (create hashFn salt store q nonce).1
      (doc_hash hashFn salt (mkEcli q) nonce)
      = some (insertedRow hashFn salt q nonce) := by
    rw [h1]
    exact findByHash_append_fresh hfresh rfl
  refine ⟨by simp [create, hkey], hfind, rfl, rfl, ?_⟩
  unfold gohash
  rw [hfind]
  rfl

/-- C2 witness: the round trip evaluated on the documented example
submission against an empty table. -/
theorem create_findByHash_roundtrip_instance :
    (create sampleHash "OpenJusticePirates" [] q0 5).2
        = .ok (doc_hash sampleHash "OpenJusticePirates" (mkEcli q0) 5)
    ∧ findByHash (create sampleHash "OpenJusticePirates" [] q0 5).1
        (doc_hash sampleHash "OpenJusticePirates" (mkEcli q0) 5)
        = some (insertedRow sampleHash "OpenJusticePirates" q0 5)
    ∧ (insertedRow sampleHash "OpenJusticePirates" q0 5).ecli = mkEcli q0
    ∧ (insertedRow sampleHash "OpenJusticePirates" q0 5).text = q0.text
    ∧ gohash (create sampleHash "OpenJusticePirates" [] q0 5).1
        (doc_hash sampleHash "OpenJusticePirates" (mkEcli q0) 5)
        = some (renderPage (mkEcli q0) q0.text) :=
  create_findByHash_roundtrip sampleHash "OpenJusticePirates" [] q0 5 rfl
    (by simp)

/-- C3: a Submit payload whose user key is not the hardcoded sentinel is
answered with HTTP 401 and the table is left unchanged (the insert is
never reached); the sentinel key passes the gate and the insert runs. -/
theorem create_auth_gate (hashFn : String → Int) (salt : String)
    (store : List EcliDocument) (q : SubmitModel) (nonce : Nat) :
    (q.user_key ≠ "test_key" →
       create hashFn salt store q nonce = (store, .authError 401 "bad user key"))
    ∧ (q.user_key = "test_key" →
       (create hashFn salt store q nonce).2
           = .ok (doc_hash hashFn salt (mkEcli q) nonce)
       ∧ (create hashFn salt store q nonce).1
           = store ++ [insertedRow hashFn salt q nonce]) := by
  constructor
  · intro h
    simp [create, h]
  · intro h
    constructor
    · simp [create, h]
    · simp [create, h]

/-- C3 witness: the gate evaluated on a wrong key and on the sentinel. -/
theorem create_auth_gate_instance :
    create sampleHash "OpenJusticePirates" [] qBad 5
        = ([], .authError 401 "bad user key")
    ∧ (create sampleHash "OpenJusticePirates" [] q0 5).2
        = .ok (doc_hash sampleHash "OpenJusticePirates" (mkEcli q0) 5) :=
  ⟨(create_auth_gate sampleHash "OpenJusticePirates" [] qBad 5).1 (by decide),
   ((create_auth_gate sampleHash "OpenJusticePirates" [] q0 5).2 rfl).1⟩

/-- C4: a Submit body missing any required field, with a non-coercible
year or country, or with an unparseable timestamp or meta, fails
validation with the offending field reported, and a failed validation
rejects the request before the gate, identifier builder, hash generator
or store are reached, leaving the table unchanged. -/
theorem submit_validation_rejects (P : Parsers) (hashFn : String → Int)
    (salt : String) (store : List EcliDocument) (obj : JObj) (nonce : Nat) :
    (∀ k ∈ submitRequiredKeys, lookupKey obj k = none →
       ∃ es, validateSubmit P obj = .error es ∧ k ∈ es)
    ∧ (∀ j, lookupKey obj "year" = some j → asInt j = none →
       ∃ es, validateSubmit P obj = .error es ∧ "year" ∈ es)
    ∧ (∀ j, lookupKey obj "country" = some j → asStr j = none →
       ∃ es, validateSubmit P obj = .error es ∧ "country" ∈ es)
    ∧ (∀ j, lookupKey obj "_timestamp" = some j → P.parseTimestamp j = none →
       ∃ es, validateSubmit P obj = .error es ∧ "_timestamp" ∈ es)
    ∧ (∀ s, lookupKey obj "meta" = some (.str s) → P.parseMeta s = none →
       ∃ es, validateSubmit P obj = .error es ∧ "meta" ∈ es)
    ∧ (∀ es, validateSubmit P obj = .error es →
       handleCreate P hashFn salt store obj nonce = (store, .validationError es)) := by
  refine ⟨?_, ?_, ?_, ?_, ?_, ?_⟩
  · intro k hk hnone
    simp only [submitRequiredKeys, List.mem_cons, List.not_mem_nil, or_false] at hk
    rcases hk with rfl|rfl|rfl|rfl|rfl|rfl|rfl|rfl
    · exact validateSubmit_field_error (Or.inl (getPosInt_missing hnone))
    · exact validateSubmit_field_error (Or.inr (Or.inl (getTimestamp_missing hnone)))
    · exact validateSubmit_field_error (Or.inr (Or.inr (Or.inl (getStr_missing hnone))))
    · exact validateSubmit_field_error (Or.inr (Or.inr (Or.inr (Or.inl (getStr_missing hnone)))))
    · exact validateSubmit_field_error (Or.inr (Or.inr (Or.inr (Or.inr (Or.inl (getInt_missing hnone))))))
    · exact validateSubmit_field_error (Or.inr (Or.inr (Or.inr (Or.inr (Or.inr (Or.inl (getStr_missing hnone)))))))
    · exact validateSubmit_field_error (Or.inr (Or.inr (Or.inr (Or.inr (Or.inr (Or.inr (Or.inl (getStr_missing hnone))))))))
    · exact validateSubmit_field_error (Or.inr (Or.inr (Or.inr (Or.inr (Or.inr (Or.inr (Or.inr (Or.inl (getStr_missing hnone)))))))))
  · intro j hl hc
    exact validateSubmit_field_error
      (Or.inr (Or.inr (Or.inr (Or.inr (Or.inl (getField_badtype asInt hl hc))))))
  · intro j hl hc
    exact validateSubmit_field_error
      (Or.inr (Or.inr (Or.inl (getField_badtype asStr hl hc))))
  · intro j hl hp
    exact validateSubmit_field_error
      (Or.inr (Or.inl (getTimestamp_unparseable hl hp)))
  · intro s hl hp
    exact validateSubmit_field_error (Or.inr (Or.inr (Or.inr (Or.inr
      (Or.inr (Or.inr (Or.inr (Or.inr (getMeta_unparseable hl hp)))))))))
  · intro es h
    unfold handleCreate
    rw [h]

/-- C4 witness: the body missing `text` is rejected with `text` reported
and the pipeline leaves the table untouched. -/
theorem submit_validation_rejects_instance :
    ("text" ∈ submitRequiredKeys)
    ∧ (∃ es, validateSubmit sampleParsers submitMissingText = .error es ∧ "text" ∈ es)
    ∧ handleCreate sampleParsers sampleHash "OpenJusticePirates" []
        submitMissingText 5 = ([], .validationError ["text"]) := by
  refine ⟨by decide, ?_, ?_⟩
  · exact (submit_validation_rejects sampleParsers sampleHash "OpenJusticePirates"
      [] submitMissingText 5).1 "text" (by decide) rfl
  · exact (submit_validation_rejects sampleParsers sampleHash "OpenJusticePirates"
      [] submitMissingText 5).2.2.2.2.2 ["text"] rfl

/-- C5: the render routes evaluated at tokens matching no stored document:
both raise an uncaught `TypeError` (modelled as `none`) instead of
producing any response, in particular no 404 page. -/
theorem render_miss_crashes :
    gohash [] "deadbeef" = none ∧ ecli [] "ECLI:XX:NOPE:1999:0" = none :=
  ⟨rfl, rfl⟩

/-- C6: with the nonce draw made an input, the hash generator returns
exactly the decimal rendering of the absolute value of the hash of the
concatenation ecli-nonce-salt, the output is the decimal rendering of a
natural number, and the nonce range has inclusive low bound 1 and high
bound 80000, which lies in the tens of thousands. -/
theorem doc_hash_algorithm (hashFn : String → Int) (salt e : String) (n : Nat) :
    doc_hash hashFn salt e n
        = toString (Int.natAbs (hashFn (e ++ toString n ++ salt)))
    ∧ (∃ m : Nat, doc_hash hashFn salt e n = toString m)
    ∧ NONCE_LO = 1 ∧ NONCE_HI = 80000
    ∧ 10000 ≤ NONCE_HI ∧ NONCE_HI ≤ 99999 :=
  ⟨rfl, ⟨_, rfl⟩, rfl, rfl, by norm_num [NONCE_HI], by norm_num [NONCE_HI]⟩

/-- C7 counterexample: two authorized creates with identical identity
fields whose nonce draws coincide return the same token, so distinctness
does not hold over all pairs of draws. -/
theorem create_same_nonce_equal_tokens :
    (create sampleHash "OpenJusticePirates"
        ((create sampleHash "OpenJusticePirates" [] q0 5).1) q0 5).2
      = (create sampleHash "OpenJusticePirates" [] q0 5).2
    ∧ (create sampleHash "OpenJusticePirates" [] q0 5).2
      = .ok (doc_hash sampleHash "OpenJusticePirates" (mkEcli q0) 5) :=
  ⟨rfl, rfl⟩

/-- C7 amended: equal nonce draws always give equal tokens; tokens agree
whenever the hashes of the two drawn strings agree in absolute value, so
two tokens differ only when those hash values differ. -/
theorem doc_hash_nonce_dependence (hashFn : String → Int) (salt e : String)
    (n1 n2 : Nat) :
    (n1 = n2 → doc_hash hashFn salt e n1 = doc_hash hashFn salt e n2)
    ∧ ((hashFn (preHash e n1 salt)).natAbs = (hashFn (preHash e n2 salt)).natAbs →
        doc_hash hashFn salt e n1 = doc_hash hashFn salt e n2)
    ∧ (doc_hash hashFn salt e n1 ≠ doc_hash hashFn salt e n2 →
        (hashFn (preHash e n1 salt)).natAbs ≠ (hashFn (preHash e n2 salt)).natAbs) := by
  refine ⟨fun h => by rw [h], fun h => ?_, fun h hc => h ?_⟩
  · unfold doc_hash
    rw [h]
  · unfold doc_hash
    rw [hc]

/-- C7 amended witness: equal draws give equal tokens, and a concrete
pair of distinct tokens has distinct underlying hash values. -/
theorem doc_hash_nonce_dependence_instance :
    doc_hash sampleHash "s" "e" 5 = doc_hash sampleHash "s" "e" 5
    ∧ (sampleHash (preHash "e" 1 "")).natAbs ≠ (sampleHash (preHash "e" 10 "")).natAbs :=
  ⟨(doc_hash_nonce_dependence sampleHash "s" "e" 5 5).1 rfl,
   (doc_hash_nonce_dependence sampleHash "" "e" 1 10).2.2 (by decide)⟩

/-- C8 counterexample: a Submit body with protocol version 2 passes
validation although 2 is not the supported VERSION constant. -/
theorem version_two_accepted :
    validateSubmit sampleParsers submitV2Obj = .ok { q0 with v := 2 }
    ∧ ({ q0 with v := 2 } : SubmitModel).v ≠ VERSION :=
  ⟨rfl, by decide⟩

/-- C8 amended: the `v` check of every request model only requires a
positive integer and never compares against the VERSION constant: any
coercible positive value is accepted, and a non-positive value fails all
three models with `_v` reported. -/
theorem v_check_positivity_only (P : Parsers) (obj : JObj) (j : Json) (n : Int)
    (hl : lookupKey obj "_v" = some j) (hj : asInt j = some n) :
    (0 < n → getPosInt obj "_v" = .ok n)
    ∧ (n ≤ 0 →
        (∃ es, validateSubmit P obj = .error es ∧ "_v" ∈ es)
        ∧ (∃ es, validateRead P obj = .error es ∧ "_v" ∈ es)
        ∧ (∃ es, validateUpdate P obj = .error es ∧ "_v" ∈ es))
    ∧ VERSION = 1 := by
  have hfield : getField obj "_v" asInt = .ok n := getField_found asInt hl hj
  refine ⟨?_, ?_, rfl⟩
  · intro hpos
    simp [getPosInt, hfield, hpos]
  · intro hneg
    have hnot : ¬ 0 < n := by omega
    have herr : getPosInt obj "_v" = .error "_v" := by
      simp [getPosInt, hfield, hnot]
    exact ⟨validateSubmit_field_error (Or.inl herr),
           validateRead_field_error (Or.inl herr),
           validateUpdate_field_error (Or.inl herr)⟩

/-- C8 amended witness: version 1 passes the `v` check and version 0 is
rejected with `_v` reported. -/
theorem v_check_positivity_only_instance :
    getPosInt submitObjFull "_v" = .ok 1
    ∧ (∃ es, validateSubmit sampleParsers submitV0Obj = .error es ∧ "_v" ∈ es) :=
  ⟨(v_check_positivity_only sampleParsers submitObjFull (Json.num 1) 1 rfl rfl).1
      (by decide),
   ((v_check_positivity_only sampleParsers submitV0Obj (Json.num 0) 0 rfl rfl).2.1
      (by decide)).1⟩

/-- C9 counterexample: a Submit body whose country, court, identifier,
text and user_key are all empty strings passes validation. -/
theorem empty_strings_accepted :
    validateSubmit sampleParsers submitEmptyObj = .ok
      { v := 1, timestamp := 1239120938, country := "", court := "",
        year := 2010, identifier := "", text := "", user_key := "",
        meta := none } :=
  rfl

/-- C9 amended: validation of the Submit string fields checks only
presence and string type; every string value, the empty string included,
is accepted. -/
theorem submit_accepts_any_strings (P : Parsers) (n t tv y : Int)
    (c ct idf tx uk : String) (hn : 0 < n)
    (ht : P.parseTimestamp (Json.num t) = some tv) :
    validateSubmit P (mkSubmitObj n t c ct y idf tx uk)
      = .ok { v := n, timestamp := tv, country := c, court := ct, year := y,
              identifier := idf, text := tx, user_key := uk, meta := none } := by
  have h1 : getPosInt (mkSubmitObj n t c ct y idf tx uk) "_v" = .ok n := by
    simp [getPosInt,
      show getField (mkSubmitObj n t c ct y idf tx uk) "_v" asInt
        = Except.ok n from rfl, hn]
  have h2 : getTimestamp P (mkSubmitObj n t c ct y idf tx uk) "_timestamp" = .ok tv := by
    simp [getTimestamp,
      show lookupKey (mkSubmitObj n t c ct y idf tx uk) "_timestamp"
        = some (Json.num t) from rfl, ht]
  unfold validateSubmit
  rw [h1, h2]
  rfl

/-- C9 amended witness: the all-empty instantiation is accepted. -/
theorem submit_accepts_any_strings_instance :
    validateSubmit sampleParsers (mkSubmitObj 1 1239120938 "" "" 2010 "" "" "")
      = .ok { v := 1, timestamp := 1239120938, country := "", court := "",
              year := 2010, identifier := "", text := "", user_key := "",
              meta := none } :=
  submit_accepts_any_strings sampleParsers 1 1239120938 1239120938 2010
    "" "" "" "" "" (by decide) rfl

/-- C10: every request model takes its envelope fields only under the
alias keys `_v` and `_timestamp`; a body without those keys (for instance
one using `v` and `timestamp` instead) fails validation of all three
models with the missing alias reported. -/
theorem envelope_alias_required (P : Parsers) (obj : JObj) :
    (lookupKey obj "_v" = none →
       (∃ es, validateSubmit P obj = .error es ∧ "_v" ∈ es)
       ∧ (∃ es, validateRead P obj = .error es ∧ "_v" ∈ es)
       ∧ (∃ es, validateUpdate P obj = .error es ∧ "_v" ∈ es))
    ∧ (lookupKey obj "_timestamp" = none →
       (∃ es, validateSubmit P obj = .error es ∧ "_timestamp" ∈ es)
       ∧ (∃ es, validateRead P obj = .error es ∧ "_timestamp" ∈ es)
       ∧ (∃ es, validateUpdate P obj = .error es ∧ "_timestamp" ∈ es)) := by
  constructor
  · intro h
    exact ⟨validateSubmit_field_error (Or.inl (getPosInt_missing h)),
           validateRead_field_error (Or.inl (getPosInt_missing h)),
           validateUpdate_field_error (Or.inl (getPosInt_missing h))⟩
  · intro h
    exact ⟨validateSubmit_field_error (Or.inr (Or.inl (getTimestamp_missing h))),
           validateRead_field_error (Or.inr (Or.inl (getTimestamp_missing h))),
           validateUpdate_field_error (Or.inr (Or.inl (getTimestamp_missing h)))⟩

/-- C10 witness: the body using plain `v`/`timestamp` keys fails Submit
validation with `_v` reported and Read validation with `_timestamp`
reported. -/
theorem envelope_alias_required_instance :
    (∃ es, validateSubmit sampleParsers plainKeysObj = .error es ∧ "_v" ∈ es)
    ∧ (∃ es, validateRead sampleParsers plainKeysObj = .error es ∧ "_timestamp" ∈ es) :=
  ⟨((envelope_alias_required sampleParsers plainKeysObj).1 rfl).1,
   ((envelope_alias_required sampleParsers plainKeysObj).2 rfl).2.1⟩

end DataApi
